import Mathlib

/-!
Verification of the contact-form backend in `contactexo.py` (Flask app for
the Exodus 2026 contact form).  We shallowly embed the pure core of the
program: Python string primitives used by the code (`str.strip`, slicing
`[:n]`, `str.lower`, `markupsafe.escape`, the e-mail regular expression),
the validator `validate_contact_form`, the sanitization block of the
`contact` handler, and the handler's control flow (JSON-shape check,
validation, sanitization, the two sequential mail sends and the mapping of
exceptions to HTTP responses).  Strings are modelled as `List Char`
(Python `len` counts code points, as does `List.length`); fallible Python
operations (`data['k']` on a missing key, `.strip()` on a non-string)
are modelled with `Except`.
-/

namespace ContactExo

set_option maxRecDepth 10000

/-- The whitespace characters stripped by Python's `str.strip()`
(ASCII whitespace; the inputs in play are ASCII). -/
def isPySpace (c : Char) : Bool :=
  c = ' ' || c = '\t' || c = '\n' || c = '\r' || c = '\x0b' || c = '\x0c'

/-- Python `s.strip()`: remove leading and trailing whitespace. -/
def pyStrip (l : List Char) : List Char :=
  ((l.dropWhile isPySpace).reverse.dropWhile isPySpace).reverse

/-- Python `s[:n]` for `n ≥ 0`: keep the first `n` characters. -/
def pyTrunc (n : Nat) (l : List Char) : List Char :=
  l.take n

/-- Python `s.lower()` restricted to ASCII (all accepted e-mail characters
are ASCII): map `A`–`Z` to `a`–`z`. -/
def pyLower (l : List Char) : List Char :=
  l.map Char.toLower

/-- `markupsafe.escape` on one character: `&`, `<`, `>`, `"`, `'` become
HTML entities, every other character is kept. -/
def escapeChar (c : Char) : List Char :=
  if c = '&' then ['&', 'a', 'm', 'p', ';']
  else if c = '<' then ['&', 'l', 't', ';']
  else if c = '>' then ['&', 'g', 't', ';']
  else if c = '"' then ['&', '#', '3', '4', ';']
  else if c = '\'' then ['&', '#', '3', '9', ';']
  else [c]

/-- `markupsafe.escape` on a string. -/
def escape (l : List Char) : List Char :=
  (l.map escapeChar).flatten

/-- Characters allowed in the local part of the e-mail pattern:
`[A-Za-z0-9._%+-]`. -/
def isLocalChar (c : Char) : Bool :=
  c.isAlpha || c.isDigit || c = '.' || c = '_' || c = '%' || c = '+' || c = '-'

/-- Characters allowed in the domain part of the e-mail pattern:
`[A-Za-z0-9.-]`. -/
def isDomainChar (c : Char) : Bool :=
  c.isAlpha || c.isDigit || c = '.' || c = '-'

/-- The tail of the e-mail pattern after the `@`:
`[A-Za-z0-9.-]+\.[A-Za-z]{2,}$` — some split into a non-empty domain part
(the characters before index `j`), a literal dot at index `j` and a
top-level domain of at least two letters running to the end. -/
def domainMatch (l : List Char) : Bool :=
  (List.range l.length).any fun j =>
    decide (0 < j) && (l.take j).all isDomainChar && decide (l[j]? = some '.') &&
      decide (2 ≤ (l.drop (j + 1)).length) && (l.drop (j + 1)).all Char.isAlpha

/-- `re.match(r'^[A-Za-z0-9._%+-]+@[A-Za-z0-9.-]+\.[A-Za-z]{2,}$', s)`:
some split into a non-empty local part, a literal `@` and a matching
domain tail.  (The argument is already stripped, so `$` is end-of-string.) -/
def emailMatch (l : List Char) : Bool :=
  (List.range l.length).any fun i =>
    decide (0 < i) && (l.take i).all isLocalChar && decide (l[i]? = some '@') &&
      domainMatch (l.drop (i + 1))

/-- `re.sub(r'[^\d]', '', phone)` followed by `len`: the number of digit
characters of the phone value. -/
def digitCount (l : List Char) : Nat :=
  (l.filter Char.isDigit).length

/-- A JSON value as far as the handler can tell: a string, or anything
else (number, null, array, object, bool). -/
inductive JVal where
  | str (s : List Char)
  | nonstr
  deriving DecidableEq

/-- The JSON object body of the request, restricted to the four keys the
program reads; `none` means the key is absent. -/
structure JObj where
  name : Option JVal
  email : Option JVal
  phone : Option JVal
  message : Option JVal
  deriving DecidableEq

/-- `data.get(k, '')` followed by a string method: yields the string, the
empty string when the key is absent, and raises (`AttributeError`) when the
value is present but not a string. -/
def pyGetStr (v : Option JVal) : Except Unit (List Char) :=
  match v with
  | none => .ok []
  | some (.str s) => .ok s
  | some .nonstr => .error ()

/-- `data[k]` followed by a string method: raises (`KeyError`) when the key
is absent and (`AttributeError`) when the value is not a string. -/
def pyIndexStr (v : Option JVal) : Except Unit (List Char) :=
  match v with
  | some (.str s) => .ok s
  | _ => .error ()

def nameShortMsg : List Char := "Name must be at least 2 characters long".toList
def nameLongMsg : List Char := "Name must be less than 100 characters".toList
def emailMsg : List Char := "Please provide a valid email address".toList
def phoneMsg : List Char := "Please provide a valid phone number".toList
def messageShortMsg : List Char := "Message must be at least 10 characters long".toList
def messageLongMsg : List Char := "Message must be less than 1000 characters".toList

/-- `validate_contact_form(data)`: collects error messages for the four
fields in order (name, email, phone, message); raises if a present field
value is not a string. -/
def validate_contact_form (d : JObj) : Except Unit (List (List Char)) := do
  let name := pyStrip (← pyGetStr d.name)
  let errors : List (List Char) :=
    if name.length < 2 then [nameShortMsg]
    else if name.length > 100 then [nameLongMsg]
    else []
  let email := pyStrip (← pyGetStr d.email)
  let errors :=
    if emailMatch email then errors else errors ++ [emailMsg]
  let phone := pyStrip (← pyGetStr d.phone)
  let errors :=
    if phone.isEmpty then errors
    else if digitCount phone < 10 || digitCount phone > 15 then errors ++ [phoneMsg]
    else errors
  let message := pyStrip (← pyGetStr d.message)
  let errors :=
    if message.length < 10 then errors ++ [messageShortMsg]
    else if message.length > 1000 then errors ++ [messageLongMsg]
    else errors
  return errors

/-- The sanitized submission built by the `contact` handler after
validation succeeds (lines 124–128 of `contactexo.py`). -/
structure Sanitized where
  name : List Char
  email : List Char
  phone : List Char
  message : List Char
  timestamp : List Char
  deriving DecidableEq

/-- The sanitization block of `contact`:
`name = escape(data['name'].strip()[:100])`,
`email = escape(data['email'].strip().lower())`,
`phone = escape(data.get('phone', '').strip()[:20])`,
`message_text = escape(data['message'].strip()[:1000])`,
with the capture-time timestamp passed in as a parameter. -/
def sanitize (d : JObj) (ts : List Char) : Except Unit Sanitized := do
  let name := escape (pyTrunc 100 (pyStrip (← pyIndexStr d.name)))
  let email := escape (pyLower (pyStrip (← pyIndexStr d.email)))
  let phone := escape (pyTrunc 20 (pyStrip (← pyGetStr d.phone)))
  let message := escape (pyTrunc 1000 (pyStrip (← pyIndexStr d.message)))
  return ⟨name, email, phone, message, ts⟩

/-- An exception raised by `mail.send`: a transport failure or any other
exception.  The code's `except Exception` does not distinguish them. -/
inductive MailExc where
  | transport
  | other
  deriving DecidableEq

/-- The external mail sender, as an oracle giving the result each of the
two sends would have if attempted. -/
structure MailOracle where
  adminSend : Except MailExc Unit
  userSend : Except MailExc Unit

/-- Which message a `mail.send` call carries. -/
inductive Who where
  | admin
  | user
  deriving DecidableEq

/-- An HTTP response of the handler: status code and the JSON body's
`success` / `message` / `errors` fields (absent fields are `none`). -/
structure Response where
  status : Nat
  success : Option Bool
  message : Option (List Char)
  errors : Option (List (List Char))
  deriving DecidableEq

def invalidJsonResp : Response :=
  ⟨400, some false, none, some ["Invalid or missing JSON data".toList]⟩

def validationResp (errs : List (List Char)) : Response :=
  ⟨400, some false, none, some errs⟩

def mailUnavailableResp : Response :=
  ⟨503, some false, some "Email service temporarily unavailable.".toList, none⟩

def internalErrorResp : Response :=
  ⟨500, some false, some "Internal server error.".toList, none⟩

def successResp : Response :=
  ⟨200, some true, some "Thank you! Your message has been sent successfully.".toList, none⟩

/-- The `contact` handler.  `body` is `request.get_json(silent=True)`
restricted to what the handler inspects: `none` when the body is not a
JSON object, otherwise the four relevant keys.  Besides the response, the
result records which `mail.send` calls were attempted, in order.  The
inner `try` around the two sends catches every exception as 503; the
outer `try` catches every other exception as 500. -/
def contact (body : Option JObj) (ts : List Char) (o : MailOracle) :
    Response × List Who :=
  match body with
  | none => (invalidJsonResp, [])
  | some d =>
    match validate_contact_form d with
    | .error _ => (internalErrorResp, [])
    | .ok errs =>
      if errs.isEmpty then
        match sanitize d ts with
        | .error _ => (internalErrorResp, [])
        | .ok _ =>
          match o.adminSend with
          | .error _ => (mailUnavailableResp, [.admin])
          | .ok _ =>
            match o.userSend with
            | .error _ => (mailUnavailableResp, [.admin, .user])
            | .ok _ => (successResp, [.admin, .user])
      else (validationResp errs, [])

/-- A `JObj` whose present fields are all strings, from four optional
plain strings. -/
def strObj (n e p m : Option (List Char)) : JObj :=
  ⟨n.map .str, e.map .str, p.map .str, m.map .str⟩

/-- The name rule of the validator, in isolation. -/
def checkName (s : List Char) : List (List Char) :=
  if (pyStrip s).length < 2 then [nameShortMsg]
  else if (pyStrip s).length > 100 then [nameLongMsg]
  else []

/-- The email rule of the validator, in isolation. -/
def checkEmail (s : List Char) : List (List Char) :=
  if emailMatch (pyStrip s) then [] else [emailMsg]

/-- The phone rule of the validator, in isolation. -/
def checkPhone (s : List Char) : List (List Char) :=
  if (pyStrip s).isEmpty then []
  else if digitCount (pyStrip s) < 10 || digitCount (pyStrip s) > 15 then [phoneMsg]
  else []

/-- The message rule of the validator, in isolation. -/
def checkMessage (s : List Char) : List (List Char) :=
  if (pyStrip s).length < 10 then [messageShortMsg]
  else if (pyStrip s).length > 1000 then [messageLongMsg]
  else []

/-- A valid submission (scenario A of the spec: no phone). -/
def goodObj : JObj :=
  strObj (some "Jo".toList) (some "jo@example.com".toList) none
    (some "Hello there, testing".toList)

/-- An invalid submission (scenario B of the spec). -/
def badObj : JObj :=
  strObj (some "J".toList) (some "bad-email".toList) none (some "short".toList)

/-- A submission with a phone number that has too few digits. -/
def phoneObj : JObj :=
  strObj (some "Jo".toList) (some "jo@example.com".toList) (some "123".toList)
    (some "Hello there, testing".toList)

/-- A submission whose name is one hundred ampersands: it passes
validation (trimmed length 100 ≤ 100), but HTML-escaping expands every
`&` to `&amp;`. -/
def ampObj : JObj :=
  strObj (some (List.replicate 100 '&')) (some "a@b.co".toList) none
    (some "hello there!!".toList)

/-- A body whose `name` key holds a non-string JSON value. -/
def nonstrObj : JObj :=
  ⟨some JVal.nonstr, none, none, none⟩

/-- The sanitized submission the handler builds for `goodObj` (with an
empty timestamp). -/
def goodOut : Sanitized :=
  ⟨escape (pyTrunc 100 (pyStrip "Jo".toList)),
   escape (pyLower (pyStrip "jo@example.com".toList)),
   escape (pyTrunc 20 (pyStrip [])),
   escape (pyTrunc 1000 (pyStrip "Hello there, testing".toList)), []⟩

/-! ## Helper lemmas -/

theorem pyGetStr_map_str (n : Option (List Char)) :
    pyGetStr (n.map JVal.str) = .ok (n.getD []) := by
  cases n <;> rfl

/-- When no field raises, `validate_contact_form` returns the
concatenation of the four independent per-field checks, in order. -/
theorem validate_eq_of (d : JObj) (a b c e : List Char)
    (hn : pyGetStr d.name = .ok a) (he : pyGetStr d.email = .ok b)
    (hp : pyGetStr d.phone = .ok c) (hm : pyGetStr d.message = .ok e) :
    validate_contact_form d =
      .ok (checkName a ++ checkEmail b ++ checkPhone c ++ checkMessage e) := by
  simp only [validate_contact_form, hn, he, hp, hm, bind, Except.bind]
  simp only [checkName, checkEmail, checkPhone, checkMessage]
  split_ifs <;> rfl

theorem validate_strObj (n e p m : Option (List Char)) :
    validate_contact_form (strObj n e p m) =
      .ok (checkName (n.getD []) ++ checkEmail (e.getD []) ++
           checkPhone (p.getD []) ++ checkMessage (m.getD [])) :=
  validate_eq_of _ _ _ _ _ (pyGetStr_map_str n) (pyGetStr_map_str e)
    (pyGetStr_map_str p) (pyGetStr_map_str m)

theorem mem_checkName (x s : List Char) :
    x ∈ checkName s ↔
      (x = nameShortMsg ∧ (pyStrip s).length < 2) ∨
      (x = nameLongMsg ∧ (pyStrip s).length > 100) := by
  unfold checkName
  split_ifs with h1 h2
  · have h2 : ¬(pyStrip s).length > 100 := by omega
    simp [h1, h2]
  · have h1' : ¬(pyStrip s).length < 2 := h1
    simp [h1', h2]
  · simp [h1, h2]

theorem mem_checkEmail (x s : List Char) :
    x ∈ checkEmail s ↔ x = emailMsg ∧ emailMatch (pyStrip s) = false := by
  unfold checkEmail
  split_ifs with h <;> simp [h]

theorem mem_checkPhone (x s : List Char) :
    x ∈ checkPhone s ↔
      x = phoneMsg ∧ pyStrip s ≠ [] ∧
        (digitCount (pyStrip s) < 10 ∨ digitCount (pyStrip s) > 15) := by
  unfold checkPhone
  split_ifs with h1 h2
  · rw [List.isEmpty_iff] at h1
    simp [h1]
  · rw [List.isEmpty_iff] at h1
    simp only [Bool.or_eq_true, decide_eq_true_eq] at h2
    simp [h1, h2]
  · rw [List.isEmpty_iff] at h1
    simp only [Bool.or_eq_true, decide_eq_true_eq] at h2
    push_neg at h2
    simp only [List.not_mem_nil, false_iff]
    rintro ⟨-, -, h | h⟩ <;> omega

theorem mem_checkMessage (x s : List Char) :
    x ∈ checkMessage s ↔
      (x = messageShortMsg ∧ (pyStrip s).length < 10) ∨
      (x = messageLongMsg ∧ (pyStrip s).length > 1000) := by
  unfold checkMessage
  split_ifs with h1 h2
  · have h2 : ¬(pyStrip s).length > 1000 := by omega
    simp [h1, h2]
  · have h1' : ¬(pyStrip s).length < 10 := h1
    simp [h1', h2]
  · simp [h1, h2]

theorem toNat_ofNat_of_valid {n : Nat} (h : n < 55296) : (Char.ofNat n).toNat = n := by
  rw [Char.ofNat, dif_pos (Or.inl h)]
  rfl

theorem uint32_le_iff (a b : UInt32) : a ≤ b ↔ a.toNat ≤ b.toNat := by
  rw [UInt32.le_def, BitVec.le_def]
  exact Iff.rfl

theorem char_toNat_inj {a b : Char} (h : a.toNat = b.toNat) : a = b := by
  have h2 := congrArg Char.ofNat h
  rwa [Char.ofNat_toNat, Char.ofNat_toNat] at h2

theorem char_eq_iff_toNat (c d : Char) : c = d ↔ c.toNat = d.toNat :=
  ⟨fun h => congrArg _ h, char_toNat_inj⟩

theorem isLocalChar_iff (c : Char) : isLocalChar c = true ↔
    (65 ≤ c.toNat ∧ c.toNat ≤ 90) ∨ (97 ≤ c.toNat ∧ c.toNat ≤ 122) ∨
    (48 ≤ c.toNat ∧ c.toNat ≤ 57) ∨ c.toNat = 46 ∨ c.toNat = 95 ∨
    c.toNat = 37 ∨ c.toNat = 43 ∨ c.toNat = 45 := by
  simp only [isLocalChar, Char.isAlpha, Char.isUpper, Char.isLower, Char.isDigit,
    Bool.or_eq_true, Bool.and_eq_true, decide_eq_true_eq, ge_iff_le,
    uint32_le_iff, char_eq_iff_toNat,
    show ('.').val.toNat = 46 from by decide, show ('_').val.toNat = 95 from by decide,
    show ('%').val.toNat = 37 from by decide, show ('+').val.toNat = 43 from by decide,
    show ('-').val.toNat = 45 from by decide]
  tauto

theorem isDomainChar_iff (c : Char) : isDomainChar c = true ↔
    (65 ≤ c.toNat ∧ c.toNat ≤ 90) ∨ (97 ≤ c.toNat ∧ c.toNat ≤ 122) ∨
    (48 ≤ c.toNat ∧ c.toNat ≤ 57) ∨ c.toNat = 46 ∨ c.toNat = 45 := by
  simp only [isDomainChar, Char.isAlpha, Char.isUpper, Char.isLower, Char.isDigit,
    Bool.or_eq_true, Bool.and_eq_true, decide_eq_true_eq, ge_iff_le,
    uint32_le_iff, char_eq_iff_toNat,
    show ('.').val.toNat = 46 from by decide, show ('-').val.toNat = 45 from by decide]
  tauto

theorem isAlpha_iff (c : Char) : c.isAlpha = true ↔
    (65 ≤ c.toNat ∧ c.toNat ≤ 90) ∨ (97 ≤ c.toNat ∧ c.toNat ≤ 122) := by
  simp only [Char.isAlpha, Char.isUpper, Char.isLower, Bool.or_eq_true,
    Bool.and_eq_true, decide_eq_true_eq, ge_iff_le, uint32_le_iff]
  exact Iff.rfl

theorem toLower_of_upper {c : Char} (h : 65 ≤ c.toNat ∧ c.toNat ≤ 90) :
    (Char.toLower c).toNat = c.toNat + 32 := by
  rw [Char.toLower, if_pos ⟨h.1, h.2⟩, toNat_ofNat_of_valid (by omega)]

theorem toLower_of_not_upper {c : Char} (h : ¬(65 ≤ c.toNat ∧ c.toNat ≤ 90)) :
    Char.toLower c = c := by
  rw [Char.toLower, if_neg h]

theorem isLocalChar_toLower {c : Char} (h : isLocalChar c = true) :
    isLocalChar c.toLower = true := by
  by_cases hc : 65 ≤ c.toNat ∧ c.toNat ≤ 90
  · rw [isLocalChar_iff, toLower_of_upper hc]
    omega
  · rwa [toLower_of_not_upper hc]

theorem isDomainChar_toLower {c : Char} (h : isDomainChar c = true) :
    isDomainChar c.toLower = true := by
  by_cases hc : 65 ≤ c.toNat ∧ c.toNat ≤ 90
  · rw [isDomainChar_iff, toLower_of_upper hc]
    omega
  · rwa [toLower_of_not_upper hc]

theorem isAlpha_toLower {c : Char} (h : c.isAlpha = true) :
    Char.isAlpha c.toLower = true := by
  by_cases hc : 65 ≤ c.toNat ∧ c.toNat ≤ 90
  · rw [isAlpha_iff, toLower_of_upper hc]
    omega
  · rwa [toLower_of_not_upper hc]

theorem toLower_not_upper (c : Char) :
    ¬(65 ≤ (Char.toLower c).toNat ∧ (Char.toLower c).toNat ≤ 90) := by
  by_cases hc : 65 ≤ c.toNat ∧ c.toNat ≤ 90
  · rw [toLower_of_upper hc]
    omega
  · rw [toLower_of_not_upper hc]
    exact hc

theorem toLower_at_sign : Char.toLower '@' = '@' := by decide

theorem toLower_dot : Char.toLower '.' = '.' := by decide

/-- `domainMatch` is stable under lower-casing. -/
theorem domainMatch_pyLower {l : List Char} (h : domainMatch l = true) :
    domainMatch (pyLower l) = true := by
  unfold domainMatch at h ⊢
  rw [List.any_eq_true] at h ⊢
  obtain ⟨j, hj, hcond⟩ := h
  simp only [Bool.and_eq_true, decide_eq_true_eq, List.all_eq_true] at hcond
  obtain ⟨⟨⟨⟨h0, hall⟩, hdot⟩, hlen⟩, htld⟩ := hcond
  refine ⟨j, by simpa [pyLower] using hj, ?_⟩
  simp only [Bool.and_eq_true, decide_eq_true_eq, List.all_eq_true]
  refine ⟨⟨⟨⟨h0, ?_⟩, ?_⟩, ?_⟩, ?_⟩
  · intro x hx
    rw [pyLower, ← List.map_take, List.mem_map] at hx
    obtain ⟨y, hy, rfl⟩ := hx
    exact isDomainChar_toLower (hall y hy)
  · rw [pyLower, List.getElem?_map, hdot]
    simp [toLower_dot]
  · simpa [pyLower] using hlen
  · intro x hx
    rw [pyLower, ← List.map_drop, List.mem_map] at hx
    obtain ⟨y, hy, rfl⟩ := hx
    exact isAlpha_toLower (htld y hy)

/-- The e-mail pattern is stable under lower-casing: an address accepted
at any letter case is still accepted once lower-cased. -/
theorem emailMatch_pyLower {l : List Char} (h : emailMatch l = true) :
    emailMatch (pyLower l) = true := by
  unfold emailMatch at h ⊢
  rw [List.any_eq_true] at h ⊢
  obtain ⟨i, hi, hcond⟩ := h
  simp only [Bool.and_eq_true, decide_eq_true_eq, List.all_eq_true] at hcond
  obtain ⟨⟨⟨h0, hall⟩, hat⟩, hdom⟩ := hcond
  refine ⟨i, by simpa [pyLower] using hi, ?_⟩
  simp only [Bool.and_eq_true, decide_eq_true_eq, List.all_eq_true]
  refine ⟨⟨⟨h0, ?_⟩, ?_⟩, ?_⟩
  · intro x hx
    rw [pyLower, ← List.map_take, List.mem_map] at hx
    obtain ⟨y, hy, rfl⟩ := hx
    exact isLocalChar_toLower (hall y hy)
  · rw [pyLower, List.getElem?_map, hat]
    simp [toLower_at_sign]
  · rw [pyLower, ← List.map_drop]
    exact domainMatch_pyLower hdom

theorem sanitize_ok_inv (d : JObj) (ts : List Char) (out : Sanitized)
    (h : sanitize d ts = .ok out) :
    ∃ a b c e, pyIndexStr d.name = .ok a ∧ pyIndexStr d.email = .ok b ∧
      pyGetStr d.phone = .ok c ∧ pyIndexStr d.message = .ok e ∧
      out = ⟨escape (pyTrunc 100 (pyStrip a)), escape (pyLower (pyStrip b)),
             escape (pyTrunc 20 (pyStrip c)), escape (pyTrunc 1000 (pyStrip e)), ts⟩ := by
  unfold sanitize at h
  cases hn : pyIndexStr d.name with
  | error u => rw [hn] at h; exact absurd h (by simp [bind, Except.bind])
  | ok a =>
  rw [hn] at h
  cases he : pyIndexStr d.email with
  | error u => rw [he] at h; exact absurd h (by simp [bind, Except.bind])
  | ok b =>
  rw [he] at h
  cases hp : pyGetStr d.phone with
  | error u => rw [hp] at h; exact absurd h (by simp [bind, Except.bind])
  | ok c =>
  rw [hp] at h
  cases hm : pyIndexStr d.message with
  | error u => rw [hm] at h; exact absurd h (by simp [bind, Except.bind])
  | ok e =>
  rw [hm] at h
  simp only [bind, Except.bind, pure, Except.pure, Except.ok.injEq] at h
  exact ⟨a, b, c, e, rfl, rfl, rfl, rfl, h.symm⟩

theorem validate_error_of_getStr_error (d : JObj)
    (h : pyGetStr d.name = .error () ∨ pyGetStr d.email = .error () ∨
         pyGetStr d.phone = .error () ∨ pyGetStr d.message = .error ()) :
    validate_contact_form d = .error () := by
  unfold validate_contact_form
  rcases h with h | h | h | h
  · rw [h]; rfl
  · cases hn : pyGetStr d.name with
    | error u => rfl
    | ok a => rw [h]; rfl
  · cases hn : pyGetStr d.name with
    | error u => rfl
    | ok a =>
      cases he : pyGetStr d.email with
      | error u => rfl
      | ok b => rw [h]; rfl
  · cases hn : pyGetStr d.name with
    | error u => rfl
    | ok a =>
      cases he : pyGetStr d.email with
      | error u => rfl
      | ok b =>
        cases hp : pyGetStr d.phone with
        | error u => rfl
        | ok c => rw [h]; rfl

theorem valid_fields (d : JObj) (h : validate_contact_form d = .ok []) :
    (∃ s, d.name = some (JVal.str s)) ∧ (∃ s, d.email = some (JVal.str s)) ∧
    (∃ s, d.message = some (JVal.str s)) ∧ ∃ c, pyGetStr d.phone = .ok c := by
  have hn : ∃ a, pyGetStr d.name = .ok a := by
    cases hv : d.name with
    | none => exact ⟨[], rfl⟩
    | some v =>
      cases v with
      | str s => exact ⟨s, rfl⟩
      | nonstr =>
        rw [validate_error_of_getStr_error d (Or.inl (by rw [hv]; rfl))] at h
        exact absurd h (by simp)
  obtain ⟨a, ha⟩ := hn
  have he : ∃ b, pyGetStr d.email = .ok b := by
    cases hv : d.email with
    | none => exact ⟨[], rfl⟩
    | some v =>
      cases v with
      | str s => exact ⟨s, rfl⟩
      | nonstr =>
        rw [validate_error_of_getStr_error d (Or.inr (Or.inl (by rw [hv]; rfl)))] at h
        exact absurd h (by simp)
  obtain ⟨b, hb⟩ := he
  have hp : ∃ c, pyGetStr d.phone = .ok c := by
    cases hv : d.phone with
    | none => exact ⟨[], rfl⟩
    | some v =>
      cases v with
      | str s => exact ⟨s, rfl⟩
      | nonstr =>
        rw [validate_error_of_getStr_error d (Or.inr (Or.inr (Or.inl (by rw [hv]; rfl))))] at h
        exact absurd h (by simp)
  obtain ⟨c, hc⟩ := hp
  have hm : ∃ e, pyGetStr d.message = .ok e := by
    cases hv : d.message with
    | none => exact ⟨[], rfl⟩
    | some v =>
      cases v with
      | str s => exact ⟨s, rfl⟩
      | nonstr =>
        rw [validate_error_of_getStr_error d (Or.inr (Or.inr (Or.inr (by rw [hv]; rfl))))] at h
        exact absurd h (by simp)
  obtain ⟨e, hm⟩ := hm
  rw [validate_eq_of d a b c e ha hb hc hm] at h
  simp only [Except.ok.injEq, List.append_eq_nil] at h
  obtain ⟨⟨⟨hcn, hce⟩, _⟩, hcm⟩ := h
  refine ⟨?_, ?_, ?_, c, hc⟩
  · cases hv : d.name with
    | none =>
      rw [hv] at ha
      injection ha with ha
      rw [← ha] at hcn
      exact absurd hcn (by decide)
    | some v =>
      cases v with
      | str s => exact ⟨s, rfl⟩
      | nonstr => rw [hv] at ha; exact absurd ha (by simp [pyGetStr])
  · cases hv : d.email with
    | none =>
      rw [hv] at hb
      injection hb with hb
      rw [← hb] at hce
      exact absurd hce (by decide)
    | some v =>
      cases v with
      | str s => exact ⟨s, rfl⟩
      | nonstr => rw [hv] at hb; exact absurd hb (by simp [pyGetStr])
  · cases hv : d.message with
    | none =>
      rw [hv] at hm
      injection hm with hm
      rw [← hm] at hcm
      exact absurd hcm (by decide)
    | some v =>
      cases v with
      | str s => exact ⟨s, rfl⟩
      | nonstr => rw [hv] at hm; exact absurd hm (by simp [pyGetStr])

theorem sanitize_ok_of_valid (d : JObj) (ts : List Char)
    (h : validate_contact_form d = .ok []) : ∃ out, sanitize d ts = .ok out := by
  obtain ⟨⟨a, ha⟩, ⟨b, hb⟩, ⟨e, he⟩, ⟨c, hc⟩⟩ := valid_fields d h
  refine ⟨⟨escape (pyTrunc 100 (pyStrip a)), escape (pyLower (pyStrip b)),
          escape (pyTrunc 20 (pyStrip c)), escape (pyTrunc 1000 (pyStrip e)), ts⟩, ?_⟩
  simp [sanitize, ha, hb, hc, he, pyIndexStr, bind, Except.bind, pure, Except.pure]

theorem escapeChar_length_le (c : Char) : (escapeChar c).length ≤ 5 := by
  unfold escapeChar
  split_ifs <;> simp

theorem escape_length_le (l : List Char) : (escape l).length ≤ 5 * l.length := by
  induction l with
  | nil => simp [escape]
  | cons c s ih =>
    have hc := escapeChar_length_le c
    simp only [escape, List.map_cons, List.flatten_cons, List.length_append,
      List.length_cons] at *
    omega

theorem mem_escape {x : Char} {l : List Char} :
    x ∈ escape l ↔ ∃ c ∈ l, x ∈ escapeChar c := by
  simp [escape, List.mem_flatten, List.mem_map]

theorem escapeChar_no_specials {c x : Char} (h : x ∈ escapeChar c) :
    x ≠ '<' ∧ x ≠ '>' ∧ x ≠ '"' ∧ x ≠ '\'' := by
  unfold escapeChar at h
  split_ifs at h with h1 h2 h3 h4 h5
  · fin_cases h <;> decide
  · fin_cases h <;> decide
  · fin_cases h <;> decide
  · fin_cases h <;> decide
  · fin_cases h <;> decide
  · rw [List.mem_singleton] at h
    subst h
    exact ⟨h2, h3, h4, h5⟩

theorem escape_no_specials {x : Char} {l : List Char} (h : x ∈ escape l) :
    x ≠ '<' ∧ x ≠ '>' ∧ x ≠ '"' ∧ x ≠ '\'' := by
  rw [mem_escape] at h
  obtain ⟨c, -, hx⟩ := h
  exact escapeChar_no_specials hx

theorem escape_eq_amp_expansion {l : List Char}
    (h : ∀ x ∈ l, x ≠ '<' ∧ x ≠ '>' ∧ x ≠ '"' ∧ x ≠ '\'') :
    escape l = (l.map fun c =>
      if c = '&' then ['&', 'a', 'm', 'p', ';'] else [c]).flatten := by
  induction l with
  | nil => rfl
  | cons c s ih =>
    have hc := h c (List.mem_cons_self c s)
    have hs : ∀ x ∈ s, x ≠ '<' ∧ x ≠ '>' ∧ x ≠ '"' ∧ x ≠ '\'' :=
      fun x hx => h x (List.mem_cons_of_mem c hx)
    simp only [escape, List.map_cons, List.flatten_cons] at *
    rw [ih hs]
    congr 1
    unfold escapeChar
    rcases hc with ⟨h1, h2, h3, h4⟩
    split_ifs with g1 <;> simp_all

/-- With a valid body, `contact` reduces to the two-send dispatch. -/
theorem contact_unfold_valid (d : JObj) (ts : List Char) (o : MailOracle)
    (hv : validate_contact_form d = .ok []) :
    contact (some d) ts o =
      match o.adminSend with
      | .error _ => (mailUnavailableResp, [Who.admin])
      | .ok _ =>
        match o.userSend with
        | .error _ => (mailUnavailableResp, [Who.admin, Who.user])
        | .ok _ => (successResp, [Who.admin, Who.user]) := by
  obtain ⟨out, hout⟩ := sanitize_ok_of_valid d ts hv
  simp [contact, hv, hout]

/-- C1: the handler attempts the admin send first and the submitter send
second, in that fixed order; when the first send raises, the second is
never attempted and the response is 503 with
`{success: false, message: "Email service temporarily unavailable."}`. -/
theorem contact_first_send_failure (d : JObj) (ts : List Char) (o : MailOracle)
    (exc : MailExc) (hv : validate_contact_form d = .ok [])
    (ha : o.adminSend = .error exc) :
    contact (some d) ts o = (mailUnavailableResp, [Who.admin]) ∧
    mailUnavailableResp =
      ⟨503, some false, some "Email service temporarily unavailable.".toList, none⟩ ∧
    (∀ o' : MailOracle, (contact (some d) ts o').2 = [Who.admin] ∨
      (contact (some d) ts o').2 = [Who.admin, Who.user]) := by
  refine ⟨?_, rfl, fun o' => ?_⟩
  · rw [contact_unfold_valid d ts o hv, ha]
  · rw [contact_unfold_valid d ts o' hv]
    cases h1 : o'.adminSend with
    | error e1 => simp
    | ok u => cases h2 : o'.userSend <;> simp

/-- Witness for C1 at a concrete valid body and a failing first send. -/
theorem contact_first_send_failure_witness :
    contact (some goodObj) [] ⟨Except.error MailExc.transport, Except.ok ()⟩ =
      (mailUnavailableResp, [Who.admin]) :=
  (contact_first_send_failure goodObj []
    ⟨Except.error MailExc.transport, Except.ok ()⟩ MailExc.transport
    (by rfl) rfl).1

/-- C2 counterexample: a name of one hundred `&` characters passes
validation, yet its sanitized form has 500 characters — more than the
stated 100-character cap — because truncation happens before escaping. -/
theorem sanitize_cap_counterexample :
    validate_contact_form ampObj = .ok [] ∧
    (sanitize ampObj []).map (fun out => out.name.length) = .ok 500 ∧
    ¬(500 ≤ 100) :=
  ⟨rfl, rfl, by decide⟩

/-- C2 amended: each field is trimmed and truncated to its cap
(name 100, phone 20, message 1000) before HTML-escaping, so the
unescaped content respects the cap; the escaped value stored in the
submission can exceed it only by the ≤5× entity expansion. -/
theorem sanitize_caps (d : JObj) (ts : List Char) (out : Sanitized)
    (h : sanitize d ts = .ok out) :
    (∃ a, pyIndexStr d.name = .ok a ∧ out.name = escape (pyTrunc 100 (pyStrip a)) ∧
      (pyTrunc 100 (pyStrip a)).length ≤ 100) ∧
    (∃ c, pyGetStr d.phone = .ok c ∧ out.phone = escape (pyTrunc 20 (pyStrip c)) ∧
      (pyTrunc 20 (pyStrip c)).length ≤ 20) ∧
    (∃ e, pyIndexStr d.message = .ok e ∧
      out.message = escape (pyTrunc 1000 (pyStrip e)) ∧
      (pyTrunc 1000 (pyStrip e)).length ≤ 1000) ∧
    out.name.length ≤ 500 ∧ out.phone.length ≤ 100 ∧
    out.message.length ≤ 5000 := by
  obtain ⟨a, b, c, e, ha, hb, hc, he, rfl⟩ := sanitize_ok_inv d ts out h
  have cap : ∀ (n : Nat) (l : List Char), (escape (pyTrunc n l)).length ≤ 5 * n := by
    intro n l
    have h1 := escape_length_le (pyTrunc n l)
    have h2 : (pyTrunc n l).length ≤ n := by
      simp only [pyTrunc, List.length_take]
      omega
    omega
  refine ⟨⟨a, ha, rfl, ?_⟩, ⟨c, hc, rfl, ?_⟩, ⟨e, he, rfl, ?_⟩, ?_, ?_, ?_⟩
  · simp only [pyTrunc, List.length_take]; omega
  · simp only [pyTrunc, List.length_take]; omega
  · simp only [pyTrunc, List.length_take]; omega
  · exact cap 100 (pyStrip a)
  · exact cap 20 (pyStrip c)
  · exact cap 1000 (pyStrip e)

/-- Witness for C2's amended statement at the concrete valid body. -/
theorem sanitize_caps_witness : goodOut.name.length ≤ 500 :=
  (sanitize_caps goodObj [] goodOut (by rfl)).2.2.2.1

/-- C3 counterexample: a *non-transport* exception raised by the first
send is still answered with 503 (`MailUnavailable`), not 500, because the
inner `except Exception` around the sends catches every exception. -/
theorem nontransport_send_counterexample :
    contact (some goodObj) [] ⟨Except.error MailExc.other, Except.ok ()⟩ =
      (mailUnavailableResp, [Who.admin]) ∧
    mailUnavailableResp.status = 503 ∧ internalErrorResp.status = 500 ∧
    mailUnavailableResp ≠ internalErrorResp :=
  ⟨by rfl, rfl, rfl, by decide⟩

/-- C3 amended: every exception raised during the two sends — transport
failure or not — yields 503 `MailUnavailable`; failures raised outside
the send block (for instance validation raising on a non-string value)
yield 500 `Internal server error.`. -/
theorem send_exception_classification (d : JObj) (ts : List Char)
    (o : MailOracle) (hv : validate_contact_form d = .ok []) :
    (∀ exc, o.adminSend = .error exc →
      contact (some d) ts o = (mailUnavailableResp, [Who.admin])) ∧
    (∀ exc, o.adminSend = .ok () → o.userSend = .error exc →
      contact (some d) ts o = (mailUnavailableResp, [Who.admin, Who.user])) ∧
    (∀ (d' : JObj) (o' : MailOracle), validate_contact_form d' = .error () →
      contact (some d') ts o' = (internalErrorResp, [])) := by
  refine ⟨?_, ?_, ?_⟩
  · intro exc ha
    rw [contact_unfold_valid d ts o hv, ha]
  · intro exc ha hu
    rw [contact_unfold_valid d ts o hv, ha, hu]
  · intro d' o' hv'
    simp [contact, hv']

/-- Witness for C3's amended statement: a non-transport failure on the
first send gives the 503 response. -/
theorem send_exception_classification_witness :
    contact (some goodObj) [] ⟨Except.error MailExc.other, Except.ok ()⟩ =
      (mailUnavailableResp, [Who.admin]) :=
  (send_exception_classification goodObj []
    ⟨Except.error MailExc.other, Except.ok ()⟩ (by rfl)).1 MailExc.other rfl

/-- C4: the validator reports the "too short" name error exactly when the
trimmed name has fewer than 2 characters and the distinct "too long" name
error exactly when it has more than 100; likewise the message errors at
10 and 1000. -/
theorem validator_name_message_bounds (n e p m : Option (List Char))
    (L : List (List Char))
    (h : validate_contact_form (strObj n e p m) = .ok L) :
    (nameShortMsg ∈ L ↔ (pyStrip (n.getD [])).length < 2) ∧
    (nameLongMsg ∈ L ↔ (pyStrip (n.getD [])).length > 100) ∧
    nameShortMsg ≠ nameLongMsg ∧
    (messageShortMsg ∈ L ↔ (pyStrip (m.getD [])).length < 10) ∧
    (messageLongMsg ∈ L ↔ (pyStrip (m.getD [])).length > 1000) ∧
    messageShortMsg ≠ messageLongMsg := by
  rw [validate_strObj] at h
  injection h with h
  subst h
  simp +decide [List.mem_append, mem_checkName, mem_checkEmail, mem_checkPhone,
    mem_checkMessage]

/-- Witness for C4 at scenario B's body (name "J", message "short"). -/
theorem validator_name_message_bounds_witness :
    nameShortMsg ∈ [nameShortMsg, emailMsg, messageShortMsg] ↔
      (pyStrip "J".toList).length < 2 :=
  (validator_name_message_bounds (some "J".toList) (some "bad-email".toList)
    none (some "short".toList) [nameShortMsg, emailMsg, messageShortMsg]
    (by rfl)).1

/-- C5: the email error is reported exactly when the trimmed email fails
the pattern; the pattern is closed under lower-casing, and the sanitized
submission always stores the lower-cased (then escaped) email. -/
theorem validator_email_rule (n e p m : Option (List Char))
    (L : List (List Char))
    (h : validate_contact_form (strObj n e p m) = .ok L) :
    (emailMsg ∈ L ↔ emailMatch (pyStrip (e.getD [])) = false) ∧
    (∀ s : List Char, emailMatch s = true → emailMatch (pyLower s) = true) ∧
    (∀ (d : JObj) (ts : List Char) (out : Sanitized) (b : List Char),
      d.email = some (JVal.str b) → sanitize d ts = .ok out →
      out.email = escape (pyLower (pyStrip b))) := by
  refine ⟨?_, fun s hs => emailMatch_pyLower hs, ?_⟩
  · rw [validate_strObj] at h
    injection h with h
    subst h
    simp +decide [List.mem_append, mem_checkName, mem_checkEmail, mem_checkPhone,
      mem_checkMessage]
  · intro d ts out b hb hout
    obtain ⟨a, b', c, e', -, hb', -, -, rfl⟩ := sanitize_ok_inv d ts out hout
    rw [hb] at hb'
    simp only [pyIndexStr, Except.ok.injEq] at hb'
    rw [hb']

/-- Witness for C5 at scenario B's body ("bad-email"). -/
theorem validator_email_rule_witness :
    emailMsg ∈ [nameShortMsg, emailMsg, messageShortMsg] ↔
      emailMatch (pyStrip "bad-email".toList) = false :=
  (validator_email_rule (some "J".toList) (some "bad-email".toList) none
    (some "short".toList) [nameShortMsg, emailMsg, messageShortMsg]
    (by rfl)).1

/-- C6: an absent or blank phone never produces a phone error, whatever
the other fields hold; a non-empty trimmed phone errors exactly when its
digit count is outside [10, 15]. -/
theorem validator_phone_rule (n e p m : Option (List Char))
    (L : List (List Char))
    (h : validate_contact_form (strObj n e p m) = .ok L) :
    (pyStrip (p.getD []) = [] → phoneMsg ∉ L) ∧
    (phoneMsg ∈ L ↔ pyStrip (p.getD []) ≠ [] ∧
      (digitCount (pyStrip (p.getD [])) < 10 ∨
        digitCount (pyStrip (p.getD [])) > 15)) := by
  rw [validate_strObj] at h
  injection h with h
  subst h
  have key : phoneMsg ∈ checkName (n.getD []) ++ checkEmail (e.getD []) ++
      checkPhone (p.getD []) ++ checkMessage (m.getD []) ↔
      pyStrip (p.getD []) ≠ [] ∧
      (digitCount (pyStrip (p.getD [])) < 10 ∨
        digitCount (pyStrip (p.getD [])) > 15) := by
    simp +decide [List.mem_append, mem_checkName, mem_checkEmail, mem_checkPhone,
      mem_checkMessage]
  exact ⟨fun hp hmem => ((key.1 hmem).1 hp), key⟩

/-- Witness for C6 at a body whose phone "123" has only three digits. -/
theorem validator_phone_rule_witness :
    phoneMsg ∈ [phoneMsg] ↔ pyStrip "123".toList ≠ [] ∧
      (digitCount (pyStrip "123".toList) < 10 ∨
        digitCount (pyStrip "123".toList) > 15) :=
  (validator_phone_rule (some "Jo".toList) (some "jo@example.com".toList)
    (some "123".toList) (some "Hello there, testing".toList) [phoneMsg]
    (by rfl)).2

/-- C7: the validator never throws on string-valued (or absent) fields,
treats absent fields as empty strings, checks the four rules
independently, and returns their violations concatenated in the fixed
order name, email, phone, message. -/
theorem validator_structure (n e p m : Option (List Char)) :
    validate_contact_form (strObj n e p m) =
      .ok (checkName (n.getD []) ++ checkEmail (e.getD []) ++
           checkPhone (p.getD []) ++ checkMessage (m.getD [])) ∧
    validate_contact_form (strObj none e p m) =
      validate_contact_form (strObj (some []) e p m) ∧
    validate_contact_form (strObj n none p m) =
      validate_contact_form (strObj n (some []) p m) ∧
    validate_contact_form (strObj n e none m) =
      validate_contact_form (strObj n e (some []) m) ∧
    validate_contact_form (strObj n e p none) =
      validate_contact_form (strObj n e p (some [])) := by
  refine ⟨validate_strObj n e p m, ?_, ?_, ?_, ?_⟩ <;>
    rw [validate_strObj, validate_strObj] <;> rfl

/-- C8: escaping is safe to re-apply: one pass leaves no raw
`<`, `>`, `"`, `'`; a second pass still leaves none and only expands the
`&` of each entity to `&amp;` — it never un-escapes. -/
theorem escape_idempotent_safe (s : List Char) :
    (∀ c ∈ escape s, c ≠ '<' ∧ c ≠ '>' ∧ c ≠ '"' ∧ c ≠ '\'') ∧
    (∀ c ∈ escape (escape s), c ≠ '<' ∧ c ≠ '>' ∧ c ≠ '"' ∧ c ≠ '\'') ∧
    escape (escape s) = ((escape s).map fun c =>
      if c = '&' then ['&', 'a', 'm', 'p', ';'] else [c]).flatten :=
  ⟨fun _ hc => escape_no_specials hc,
   fun _ hc => escape_no_specials hc,
   escape_eq_amp_expansion (fun _ hx => escape_no_specials hx)⟩

/-- Witness for C8 at a concrete character of a concrete escape. -/
theorem escape_idempotent_safe_witness :
    ('a' : Char) ≠ '<' ∧ ('a' : Char) ≠ '>' ∧ ('a' : Char) ≠ '"' ∧
      ('a' : Char) ≠ '\'' :=
  (escape_idempotent_safe ['a']).1 'a' (by decide)

/-- C9: when validation reports no errors, the `name`, `email` and
`message` keys are necessarily present with string values, so the
sanitizer's direct indexing cannot raise for any timestamp. -/
theorem valid_implies_fields_present (d : JObj)
    (h : validate_contact_form d = .ok []) :
    (∃ s, d.name = some (JVal.str s)) ∧ (∃ s, d.email = some (JVal.str s)) ∧
    (∃ s, d.message = some (JVal.str s)) ∧
    ∀ ts, ∃ out, sanitize d ts = .ok out := by
  obtain ⟨hn, he, hm, -⟩ := valid_fields d h
  exact ⟨hn, he, hm, fun ts => sanitize_ok_of_valid d ts h⟩

/-- Witness for C9 at the concrete valid body. -/
theorem valid_implies_fields_present_witness :
    ∃ s, goodObj.name = some (JVal.str s) :=
  (valid_implies_fields_present goodObj (by rfl)).1

/-- C10: a present but non-string field value makes validation itself
raise, and the request is answered 500 `Internal server error.` (not a
400 validation error); the empty-string default applies only to absent
keys. -/
theorem nonstring_field_500 (d : JObj) (ts : List Char) (o : MailOracle)
    (h : d.name = some JVal.nonstr ∨ d.email = some JVal.nonstr ∨
         d.phone = some JVal.nonstr ∨ d.message = some JVal.nonstr) :
    validate_contact_form d = .error () ∧
    contact (some d) ts o = (internalErrorResp, []) ∧
    internalErrorResp.status = 500 ∧
    pyGetStr none = .ok [] ∧ pyGetStr (some JVal.nonstr) = .error () := by
  have hval : validate_contact_form d = .error () := by
    apply validate_error_of_getStr_error
    rcases h with h | h | h | h
    · exact Or.inl (by rw [h]; rfl)
    · exact Or.inr (Or.inl (by rw [h]; rfl))
    · exact Or.inr (Or.inr (Or.inl (by rw [h]; rfl)))
    · exact Or.inr (Or.inr (Or.inr (by rw [h]; rfl)))
  exact ⟨hval, by simp [contact, hval], rfl, rfl, rfl⟩

/-- Witness for C10 at a body whose `name` is a non-string value. -/
theorem nonstring_field_500_witness :
    contact (some nonstrObj) [] ⟨Except.ok (), Except.ok ()⟩ =
      (internalErrorResp, []) :=
  (nonstring_field_500 nonstrObj [] ⟨Except.ok (), Except.ok ()⟩
    (Or.inl rfl)).2.1

end ContactExo
